import Mathlib

/-!
Verification of the Mastermind test-orchestration core (mastermind/lib):
shallow embedding of helpers.py (combination generation), testsuite.py
(execution driver exit-code aggregation), utils.py (subprocess run with
watchdog timeout), internal.py (marker-option resolution and status
classification) and statuses.py (status taxonomy), together with theorems
about the embedded definitions.

The source is Python 2 (testsuite.py uses a print statement); where Python-2
semantics matter (string/int comparison in asserts, keyword-argument
binding) the embedding follows Python 2.
-/

set_option maxRecDepth 4000

namespace Mastermind

/-- Python values that appear as marker-option / combination values. -/
inductive Val where
  | int (n : Int)
  | str (s : String)
  | bool (b : Bool)
  deriving DecidableEq, Repr

/-- Python str() of a value (only reached for non-bool values in the
default id generator, but defined for all). -/
def Val.pyStr : Val → String
  | .int n => toString n
  | .str s => s
  | .bool b => if b then "True" else "False"

/-- A combination: the single-valued dict built by generate_combinations,
as an association list in key-insertion order. -/
abbrev Comb := List (String × Val)

/-- An input-mapping value: either a scalar or a sequence of candidates
(helpers.py distinguishes them with is_iterable). -/
inductive CandVals where
  | scalar (v : Val)
  | seq (vs : List Val)
  deriving DecidableEq, Repr

/-- helpers.py:231-235: a non-iterable value v is wrapped as [v]. -/
def CandVals.toList : CandVals → List Val
  | .scalar v => [v]
  | .seq vs => vs

/-- helpers.py:188-198, default_generator: True shows the key only, False
drops the pair, anything else shows key:str(value).  Python tests identity
(value is True / value is False), so only genuine booleans hit the first
two branches. -/
def default_generator (key : String) (value : Val) : Option String :=
  match value with
  | .bool true => some key
  | .bool false => none
  | v => some (key ++ ":" ++ v.pyStr)

/-- helpers.py:200-209, generate_id: apply the id function to every pair,
drop None and empty parts ("if not part: continue"), join with commas. -/
def generate_id (c : Comb) (fn : String → Val → Option String) : String :=
  String.intercalate "," (c.filterMap fun kv =>
    match fn kv.1 kv.2 with
    | none => none
    | some s => if s = "" then none else some s)

/-- A filter passed to generate_combinations.  Python inspects the
function's argument names; argCount models len(inspect.getargspec(f)[0]).
A two-argument filter also receives the pytest config; its observable
effect on a combination is still a boolean, so pred closes over config. -/
structure GenFilter where
  name : String
  argCount : Nat
  pred : Comb → Bool

/-- The two failure modes of generate_combinations: the arity assert
(helpers.py:224) and the duplicate-id ValueError (helpers.py:251-253),
which carries the shared id, the current combination and the earlier
combination at combinations[ids.index(id)]. -/
inductive GenError where
  | badFilterArity (name : String)
  | duplicateId (id : String) (c1 c2 : Comb)
  deriving DecidableEq, Repr

/-- itertools.product over the candidate lists (rightmost factor varies
fastest, matching itertools). -/
def pyProduct : List (List Val) → List (List Val)
  | [] => [[]]
  | vs :: rest => vs.flatMap fun v => (pyProduct rest).map (v :: ·)

/-- helpers.py:240-254, the generation loop.  For each product tuple the
combination dict is built in key order; a combination failing some filter
is skipped; otherwise it is appended, its id computed, and a non-empty id
already present in ids aborts with ValueError naming both combinations.
combs and ids are the accumulators (kept in lockstep). -/
def genLoop (idg : String → Val → Option String) (filters : List GenFilter) :
    List Comb → List Comb → List String → Except GenError (List Comb × List String)
  | [], combs, ids => .ok (combs, ids)
  | c :: rest, combs, ids =>
    if !filters.isEmpty && !(filters.all fun f => f.pred c) then
      genLoop idg filters rest combs ids
    else
      -- id = generate_id(combination, id_generator)
      if generate_id c idg ≠ "" ∧ generate_id c idg ∈ ids then
        .error (.duplicateId (generate_id c idg) c
          (combs.getD (ids.indexOf (generate_id c idg)) c))
      else
        genLoop idg filters rest (combs ++ [c]) (ids ++ [generate_id c idg])

/-- helpers.py:136-256, generate_combinations.  An empty mapping returns
([], []) before anything else (helpers.py:211-212); then every filter's
arity is asserted to be 1 or 2 (helpers.py:222-225) before any combination
is generated; then the Cartesian product is enumerated. -/
def generate_combinations (m : List (String × CandVals))
    (id_generator : Option (String → Val → Option String))
    (filters : List GenFilter) : Except GenError (List Comb × List String) :=
  if m.isEmpty then .ok ([], [])
  else
    let idg := id_generator.getD default_generator
    match filters.find? (fun f => ¬ (1 ≤ f.argCount ∧ f.argCount ≤ 2)) with
    | some f => .error (.badFilterArity f.name)
    | none =>
      let keys := m.map Prod.fst
      let values := m.map fun kv => kv.2.toList
      genLoop idg filters ((pyProduct values).map (keys.zip ·)) [] []

/-- Does a combination pass all filters?  (helpers.py:247: with no filters
the conjunction is skipped, which agrees with all-over-empty = true.) -/
def keepComb (filters : List GenFilter) (c : Comb) : Bool :=
  filters.all fun f => f.pred c

/-- Spec-side view: the full list of combinations a call enumerates (the
Cartesian product re-attached to the keys). -/
def fullCombs (m : List (String × CandVals)) : List Comb :=
  (pyProduct (m.map fun kv => kv.2.toList)).map ((m.map Prod.fst).zip ·)

/-- Spec-side view: the retained combinations of a call, ignoring the
duplicate-id abort. -/
def retainedCombs (m : List (String × CandVals)) (filters : List GenFilter) : List Comb :=
  (fullCombs m).filter (keepComb filters)

/-- Spec-side view: the ids the retained combinations derive. -/
def retainedIds (m : List (String × CandVals))
    (id_generator : Option (String → Val → Option String))
    (filters : List GenFilter) : List String :=
  (retainedCombs m filters).map
    (generate_id · (id_generator.getD default_generator))

/-! ## testsuite.py: exit codes and the _run loop -/

/-- testsuite.py:23-32, ExitCodes (the pytest enumeration). -/
def EXIT_OK : Int := 0
def EXIT_TESTSFAILED : Int := 1
def EXIT_INTERRUPTED : Int := 2
def EXIT_INTERNALERROR : Int := 3
def EXIT_USAGEERROR : Int := 4
def EXIT_NOTESTSCOLLECTED : Int := 5

/-- testsuite.py:420-457, the exit-code flow of Testsuite._run for runs
without --collect-only and without --help (those return the first code
immediately).
The plan lists, in order, the subprocess exit code of each (branch,
configuration) pair the loop would execute: check_call succeeding is code
0 (rc = EXIT_OK), CalledProcessError gives rc = exc.returncode, rc is
added to exit_codes in the finally block, and a code outside
{EXIT_TESTSFAILED} (0 never raises) with --ignore-internal-errors unset
sets interrupted and breaks out of both loops.  Returns the list of codes
actually added to exit_codes. -/
def runExecutedCodes (plan : List Int) (ignoreInternalErrors : Bool) : List Int :=
  match plan with
  | [] => []
  | c :: rest =>
    if c = EXIT_OK ∨ c = EXIT_TESTSFAILED ∨ ignoreInternalErrors then
      c :: runExecutedCodes rest ignoreInternalErrors
    else
      [c]

/-- max(exit_codes) for a non-empty collection (Python max raises on an
empty one; _run always executes at least one pair: repositories is at
least [None] and build_arguments yields at least one command). -/
def listMaxInt : List Int → Int
  | [] => 0
  | c :: cs => cs.foldl max c

/-- testsuite.py:459: the final exit code of Testsuite._run. -/
def runFinalCode (plan : List Int) (ignoreInternalErrors : Bool) : Int :=
  listMaxInt (runExecutedCodes plan ignoreInternalErrors)

/-! ## utils.py run / exceptions.py ProcessError: the watchdog timeout -/

/-- exceptions.py:123: the reserved timeout sentinel. -/
def ProcessError.TIMEOUT : Int := -1

/-- The fields of exceptions.py ProcessError that utils.run fills:
the message, the exit code, and the timeout attribute (False when no
timeout fired, the timeout duration when it did). -/
structure PError where
  message : String
  exit_code : Int
  timeout : Option Nat
  deriving DecidableEq, Repr

/-- utils.py:1068-1157, the exit-code path of run.  timeout is the
requested watchdog duration in seconds (0 = no timeout: both "if timeout"
guards are falsy).  waitCode is what p.wait() returned; timerFired models
getattr(p, 'timeout', False), which is True exactly when the watchdog
timer's handler ran (only possible when the timer was started, i.e.
timeout > 0).  When the timer fired, ec is replaced by the TIMEOUT
sentinel and timed_out is set to the timeout duration; any non-zero ec
raises ProcessError("Process has failed with exit code " + str(ec), ec,
..., timeout=timed_out); otherwise the exit code is returned.  There is
no retry: the single invocation either returns or raises. -/
def runInvocation (timeout : Nat) (waitCode : Int) (timerFired : Bool) :
    Except PError Int :=
  let ec := waitCode
  let ecTimed : Int × Option Nat :=
    if timeout ≠ 0 then
      if timerFired then (ProcessError.TIMEOUT, some timeout) else (ec, none)
    else (ec, none)
  if ecTimed.1 ≠ 0 then
    .error ⟨"Process has failed with exit code " ++ toString ecTimed.1, ecTimed.1, ecTimed.2⟩
  else
    .ok ecTimed.1

/-! ## internal.py: MarkerOption resolution -/

/-- Association-list lookup (getattr / dict.get with default None). -/
def lookupAssoc {α : Type} : List (String × α) → String → Option α
  | [], _ => none
  | kv :: rest, k => if kv.1 = k then some kv.2 else lookupAssoc rest k

/-- The slice of a pytest metafunc that MarkerOption._get_value consults:
the markers set on the test function (marker name → keyword arguments),
the static variables of the enclosing class (metafunc.cls may be None),
and the static variables of the module. -/
structure Metafunc (α : Type) where
  funcMarkers : List (String × List (String × α))
  cls : Option (List (String × α))
  module : List (String × α)

/-- The identity of a marker option (internal.py:382-401).  A value of
None recorded in kwargs is indistinguishable from an absent kwarg for
_get_value (marker.kwargs.get returns None either way), so kwargs map to
non-None values only. -/
structure MarkerOption where
  marker_name : String
  option_name : String
  static_name : String

/-- Spec-side views of the three resolution sources of
MarkerOption._get_value: the explicit per-test marker override. -/
def markerValue {α : Type} (mo : MarkerOption) (m : Metafunc α) : Option α :=
  (lookupAssoc m.funcMarkers mo.marker_name).bind fun kwargs =>
    lookupAssoc kwargs mo.option_name

/-- The class-level (narrower) static default. -/
def classValue {α : Type} (mo : MarkerOption) (m : Metafunc α) : Option α :=
  m.cls.bind fun cv => lookupAssoc cv mo.static_name

/-- The module-level (wider) static default. -/
def moduleValue {α : Type} (mo : MarkerOption) (m : Metafunc α) : Option α :=
  lookupAssoc m.module mo.static_name

/-- internal.py:435-456, MarkerOption._get_value: highest priority is the
marker on the test function (scope 'function'), then the class static
variable (scope 'class'), then the module global variable (scope
'module'); when nothing is found both value and scope are None. -/
def MarkerOption.getValue {α : Type} (mo : MarkerOption) (m : Metafunc α) :
    Option α × Option String :=
  let vs : Option α × Option String :=
    match lookupAssoc m.funcMarkers mo.marker_name with
    | some kwargs => (lookupAssoc kwargs mo.option_name, some "function")
    | none => (none, none)
  let vs := if vs.1.isNone then
      (m.cls.bind fun cv => lookupAssoc cv mo.static_name, some "class")
    else vs
  let vs := if vs.1.isNone then
      (lookupAssoc m.module mo.static_name, some "module")
    else vs
  if vs.1.isNone then (none, none) else vs

/-! ## String helpers mirroring the Python operations used by statuses.py
and internal.py -/

/-- needle-in-haystack over character lists ("x in s" for plain
substrings; also used for the regex searches whose patterns are plain
text). -/
def charsContains (needle : List Char) : List Char → Bool
  | [] => needle.isEmpty
  | c :: rest => needle.isPrefixOf (c :: rest) || charsContains needle rest

/-- Python "needle in hay". -/
def strContains (hay needle : String) : Bool :=
  charsContains needle.data hay.data

/-- Python s.startswith(pre). -/
def pyStartsWith (s pre : String) : Bool :=
  pre.data.isPrefixOf s.data

/-- Python str.capitalize: first character upper-cased, the rest
lower-cased. -/
def pyCapitalize (s : String) : String :=
  match s.data with
  | [] => ""
  | c :: cs => String.mk (c.toUpper :: cs.map Char.toLower)

/-- Structural scan replacing every empty-brace placeholder pair by the
argument (the templates used here contain no brace escapes). -/
def pyFormatChars (arg : List Char) : List Char → List Char
  | [] => []
  | [c] => [c]
  | c :: d :: rest =>
    if c = '\x7b' ∧ d = '\x7d' then arg ++ pyFormatChars arg rest
    else c :: pyFormatChars arg (d :: rest)

/-- Python template.format(arg) for templates whose placeholders are the
empty-brace pair. -/
def pyFormat1 (template arg : String) : String :=
  String.mk (pyFormatChars arg.data template.data)

/-! ## statuses.py: the status taxonomy -/

/-- statuses.py:13-17: the pytest execution phases.  STATUS_PHASE_NONE is
Python None, so a status phase is an Option Phase. -/
inductive Phase where
  | setup
  | call
  | teardown
  deriving DecidableEq, Repr

def STATUS_PHASES : List (Option Phase) :=
  [none, some .setup, some .call, some .teardown]

/-- statuses.py:21-24: common error ids (1 is reserved for TEST_FAILED). -/
def STATUS_FAILED : Nat := 1
def STATUS_GENERALERROR : Nat := 2
def STATUS_BUILDERROR : Nat := 3
def STATUS_TIMEOUT : Nat := 4

/-- statuses.py:25-28, COMMON_ERRORS: (sid, name, description template).
The patterns slot of every entry is None in the source and is omitted
here (see statusAttrs). -/
def COMMON_ERRORS : List (Nat × String × String) :=
  [(STATUS_GENERALERROR, "GENERALERROR", "\x7b\x7d general error"),
   (STATUS_BUILDERROR, "BUILDERROR", "\x7b\x7d build error"),
   (STATUS_TIMEOUT, "TIMEOUT", "\x7b\x7d timeout exceeded")]

def PHASE_WEIGHT : Nat := 10000
def ITEM_WEIGHT : Nat := 100

/-- The Status subclasses declared in statuses.py (statuses.py:228-425).
status_classes() collects exactly these (every class except the base
Status itself). -/
inductive SClass where
  | bootstrap
  | internal
  | model
  | semantics
  | assembler
  | disassembler
  | compiler
  | libraries
  | simulator
  | debugger
  | profiler
  | cosimulator
  | randomAsm
  | rtl
  | uvm
  | uvmFu
  | tools
  deriving DecidableEq, Repr

/-- The set built by status_classes() (statuses.py:427-446).  The source
keeps it in a Python set, whose iteration order is unspecified; the
embedding lists the classes in declaration order, and every lookup the
theorems rely on is order-independent (ITEM_NAMEs are pairwise distinct,
and fuzzy lookups are only applied to inputs matching a single class). -/
def statusClasses : List SClass :=
  [.bootstrap, .internal, .model, .semantics, .assembler, .disassembler,
   .compiler, .libraries, .simulator, .debugger, .profiler, .cosimulator,
   .randomAsm, .rtl, .uvm, .uvmFu, .tools]

/-- ITEM_ID per class (statuses.py:231,261,283,290,298,305,312,319,326,
333,349,356,363,370,377,414,421).  Note StatusBootstrap and
StatusCompiler both declare ITEM_ID = 5. -/
def ITEM_ID : SClass → Nat
  | .bootstrap => 5
  | .internal => 0
  | .model => 1
  | .semantics => 2
  | .assembler => 3
  | .disassembler => 4
  | .compiler => 5
  | .libraries => 6
  | .simulator => 7
  | .debugger => 8
  | .profiler => 9
  | .cosimulator => 10
  | .randomAsm => 11
  | .rtl => 12
  | .uvm => 13
  | .uvmFu => 14
  | .tools => 15

/-- ITEM_NAME per class (the tool-name constants of lib/"__init__".py). -/
def ITEM_NAME : SClass → String
  | .bootstrap => "bootstrap"
  | .internal => "internal"
  | .model => "model"
  | .semantics => "semantics"
  | .assembler => "assembler"
  | .disassembler => "disassembler"
  | .compiler => "compiler"
  | .libraries => "libs"
  | .simulator => "simulator"
  | .debugger => "debugger"
  | .profiler => "profiler"
  | .cosimulator => "cosimulator"
  | .randomAsm => "random_asm"
  | .rtl => "rtl"
  | .uvm => "uvm"
  | .uvmFu => "uvm_fu"
  | .tools => "task_tools"

/-- SUPPORT_COMMON_ERRORS: True on the base class, overridden to False by
StatusBootstrap and StatusInternal. -/
def SUPPORT_COMMON_ERRORS : SClass → Bool
  | .bootstrap => false
  | .internal => false
  | _ => true

/-- The STATUS_ class attributes declared by each class, as
(attribute name, sid, description) in declaration order (the source reads
them from the class __dict__, whose order Python 2 does not specify; no
result below depends on the order).  The patterns slot of every declared
triplet is None in the source; the only code path that would read a
status's patterns is the Status._clasify_other loop, which raises before
doing so (see clasifyOtherBase), so the slot is omitted. -/
def declaredAttrs : SClass → List (String × Nat × String)
  | .bootstrap =>
    [("STATUS_EXIT_OK", 0, "No errors occured during build"),
     ("STATUS_EXIT_FAIL", 1, "General build error"),
     ("STATUS_EXIT_FAIL_PACKAGING", 2, "Packaging failed"),
     ("STATUS_EXIT_FAIL_MODEL", 3, "Model worker failed"),
     ("STATUS_EXIT_FAIL_CLANG", 10, "Clang worker failed"),
     ("STATUS_EXIT_FAIL_CONTRIB", 15, "Contrib worker failed"),
     ("STATUS_EXIT_FAIL_ECLIPSE", 20, "Eclipse CDT worker failed"),
     ("STATUS_EXIT_FAIL_GNU_BINUTILS", 25, "GNU Binutils worker failed"),
     ("STATUS_EXIT_FAIL_IDE", 30, "IDE worker failed"),
     ("STATUS_EXIT_FAIL_INSTALLER", 35, "Installer worker failed"),
     ("STATUS_EXIT_FAIL_LIBRARY", 40, "Library worker failed"),
     ("STATUS_EXIT_FAIL_LLVM", 45, "LLVM worker failed"),
     ("STATUS_EXIT_FAIL_LMX", 50, "LMX worker failed"),
     ("STATUS_EXIT_FAIL_MINGW", 55, "Mingw worker failed"),
     ("STATUS_EXIT_FAIL_MSYS2", 60, "Msys2 worker failed"),
     ("STATUS_EXIT_FAIL_RTL_CACHE", 65, "RTL template cache worker failed"),
     ("STATUS_EXIT_FAIL_THIRD_PARTY", 70, "Third party tools worker failed"),
     ("STATUS_EXIT_FAIL_TOOLS", 75, "Tools worker failed"),
     ("STATUS_EXIT_FAIL_VIP_DATA", 80, "VIP data worker failed"),
     ("STATUS_EXIT_FAIL_VIP_JTAG", 85, "VIP JTAG worker failed"),
     ("STATUS_EXIT_FAIL_ZERO_TOLERANCE", 90, "Zero tolerance check worker failed"),
     ("STATUS_EXIT_FAIL_LLDB", 95, "Lldb worker failed"),
     ("STATUS_EXIT_FAIL_OPENOCD", 100, "OpenOCD check worker failed")]
  | .internal =>
    [("STATUS_OK", 1, "No errors occured during execution"),
     ("STATUS_EXIT_TESTSFAILED", 2, "Some tests have failed during execution"),
     ("STATUS_EXIT_INTERRUPTED", 3, "Execution has been terminated by user"),
     ("STATUS_EXIT_INTERNALERROR", 4, "Mastermind internal error"),
     ("STATUS_EXIT_USAGEERROR", 5, "Mastermind usage error"),
     ("STATUS_EXIT_NOTESTSCOLLECTED", 6, "No tests were collected"),
     ("STATUS_FAILED", STATUS_FAILED, "Test Failed"),
     ("STATUS_INVALIDCOMMAND", 10, "Invalid Command")]
  | .uvm =>
    [("STATUS_TIMEOUT_DUT", 10, "DUT Timeout"),
     ("STATUS_TIMEOUT_GM", 11, "Golden Model Timeout"),
     ("STATUS_TIMEOUT_DUT_AND_GM", 12, "DUT and Golden Model Timeout")]
  | _ => []

/-- Status._status_name (statuses.py:165-171): cut the STATUS_ prefix. -/
def statusName (attr : String) : String :=
  if pyStartsWith attr "STATUS_" then attr.drop 7 else attr

/-- statuses.py:131: is_execution_result = 'OK' in name or 'EXIT' in name
(substring test on the full attribute name, used by Status.status). -/
def isExecutionResult (attr : String) : Bool :=
  strContains attr "OK" || strContains attr "EXIT"

/-- statuses.py:492: the generation loop instead tests
_status_name(attribute).startswith(('EXIT', 'OK')). -/
def isExitName (stripped : String) : Bool :=
  pyStartsWith stripped "EXIT" || pyStartsWith stripped "OK"

/-- Status.get_status_attributes (statuses.py:137-163): the declared
STATUS_ attributes, plus (when include_common) the COMMON_ERRORS entries
under the names STATUS_<name> with the description template formatted
with the capitalized ITEM_NAME. -/
def statusAttrs (c : SClass) (includeCommon : Bool) : List (String × Nat × String) :=
  declaredAttrs c ++
    (if includeCommon then
      COMMON_ERRORS.map fun e =>
        ("STATUS_" ++ e.2.1, e.1, pyFormat1 e.2.2 (pyCapitalize (ITEM_NAME c)))
    else [])

/-- A constructed Status value: its class, numeric local id, code name
(attribute name with the STATUS_ prefix cut) and phase. -/
structure StatusVal where
  cls : SClass
  sid : Nat
  code : String
  phase : Option Phase
  deriving DecidableEq, Repr

/-- Status.status_id (statuses.py:99-104): PHASE_WEIGHT times the index
of the phase in STATUS_PHASES, plus ITEM_WEIGHT times the class ITEM_ID,
plus the local id. -/
def status_id (s : StatusVal) : Nat :=
  PHASE_WEIGHT * STATUS_PHASES.indexOf s.phase + ITEM_WEIGHT * ITEM_ID s.cls + s.sid

/-- Status.__eq__ (statuses.py:219-220). -/
def statusEq (a b : StatusVal) : Prop := status_id a = status_id b

/-- Status.__lt__ (statuses.py:222-223). -/
def statusLt (a b : StatusVal) : Prop := status_id a < status_id b

/-- Status.__gt__ (statuses.py:225-226). -/
def statusGt (a b : StatusVal) : Prop := status_id a > status_id b

instance (a b : StatusVal) : Decidable (statusEq a b) :=
  inferInstanceAs (Decidable (status_id a = status_id b))

instance (a b : StatusVal) : Decidable (statusLt a b) :=
  inferInstanceAs (Decidable (status_id a < status_id b))

instance (a b : StatusVal) : Decidable (statusGt a b) :=
  inferInstanceAs (Decidable (status_id a > status_id b))

/-- Status.status (statuses.py:123-135): find the first attribute (over
get_status_attributes with the class default include_common) whose sid
matches, skipping execution-result attributes when a phase is given and
test-result attributes when it is not; construct the matching status.
Returns None (falls off the loop) when nothing matches. -/
def Status.status (c : SClass) (id : Nat) (phase : Option Phase) : Option StatusVal :=
  (statusAttrs c (SUPPORT_COMMON_ERRORS c)).findSome? fun a =>
    if a.2.1 = id ∧ phase.isSome ≠ isExecutionResult a.1 then
      some ⟨c, a.2.1, statusName a.1, phase⟩
    else none

/-- The per-class slice of the registry built by generate_statuses
(statuses.py:448-504): for each phase in [setup, call, teardown], every
attribute of get_status_attributes() is instantiated — EXIT_/OK
attributes without a phase (hence identically in each of the three
iterations, collapsed by the status_id-keyed dict into one entry),
the rest with the phase; the explicit common-error block (statuses.py:
498-502) re-adds entries that get_status_attributes() already produced
and is absorbed by the same dict.  This definition lists the distinct
dict entries directly. -/
def registryOf (c : SClass) : List StatusVal :=
  let attrs := statusAttrs c (SUPPORT_COMMON_ERRORS c)
  ((attrs.filter fun a => isExitName (statusName a.1)).map fun a =>
      ⟨c, a.2.1, statusName a.1, none⟩) ++
    ([Phase.setup, .call, .teardown].flatMap fun p =>
      (attrs.filter fun a => !isExitName (statusName a.1)).map fun a =>
        ⟨c, a.2.1, statusName a.1, some p⟩)

/-- All statuses generated from the declared classes. -/
def allStatuses : List StatusVal :=
  statusClasses.flatMap registryOf

/-! ## internal.py: StatusClasifier -/

/-- Python re \s (no re.UNICODE in the source patterns). -/
def pySpaceChar (c : Char) : Bool :=
  c = ' ' || c = '\t' || c = '\n' || c = '\x0b' || c = '\x0c' || c = '\r'

/-- Python 2 re \w: [a-zA-Z0-9_]. -/
def pyWordChar (c : Char) : Bool :=
  c.isAlphanum || c = '_'

/-- The exception Python would raise out of the classification paths
embedded below (Status._clasify_other's broken constructor call). -/
inductive PyErr where
  | typeError
  deriving DecidableEq, Repr

/-- The slice of a failed pytest report consulted by classification:
passed flag, the optional report.tool attribute naming the failed tool,
report.when, and — for StatusUvm._clasify_ToolError — the lines of the
file named by the uvm_report_path metadata entry (None when the metadata
entry is absent or the file does not exist). -/
structure Report where
  passed : Bool
  tool : Option String
  whenPhase : Phase
  uvmReport : Option (List String)

/-- The slice of call.excinfo consulted by classification: the exception
type name and — for the ToolBuildError handler — stderr and stdout
already split into lines. -/
structure Exc where
  typename : String
  stderrLines : List String
  stdoutLines : List String

/-- StatusClasifier.find_status_class with precise item_name matching
(internal.py:566-574); the ITEM_NAMEs are pairwise distinct so the set
iteration order of the source does not matter. -/
def find_status_class (tool : String) : Option SClass :=
  statusClasses.find? fun c => ITEM_NAME c = tool

/-- StatusClasifier._get_passed_status (internal.py:576-578):
STATUS_OK_ID = (StatusInternal, STATUS_FAILED), looked up without a
phase, which selects the execution-result attribute STATUS_OK (sid 1). -/
def getPassedStatus : Option StatusVal :=
  Status.status .internal STATUS_FAILED none

/-- StatusClasifier._get_general_failed_status (internal.py:580-581). -/
def getGeneralFailedStatus (p : Option Phase) : Option StatusVal :=
  Status.status .internal STATUS_FAILED p

/-- Status._clasify_other (statuses.py:192-197).  The loop body runs
cls(id, *attributes, phase=report.when) where id is the attribute NAME
(the dict key) and attributes is the (sid, description, patterns)
triplet, so Status.__init__ receives four positional arguments — binding
sid=name, code=sid, description=description, phase=patterns — plus the
keyword phase=report.when: Python raises TypeError (multiple values for
keyword argument 'phase') as soon as the class declares any STATUS_
attribute.  (Also, in that call the attribute-name string lands in the
sid slot; Python 2's "assert sid >= 0" would pass on a string, but the
TypeError fires first.)  When the class declares no STATUS_ attributes
the loop body never runs and the method falls through to
cls.status(STATUS_GENERALERROR, report.when). -/
def clasifyOtherBase (c : SClass) (w : Phase) : Except PyErr (Option StatusVal) :=
  if (declaredAttrs c).isEmpty then
    .ok (Status.status c STATUS_GENERALERROR (some w))
  else
    .error .typeError

/-- The generic handler reached for a status class: StatusInternal
overrides _clasify_other to cls.status(STATUS_FAILED, report.when)
(statuses.py:278-280); every other class uses the base method. -/
def cls_clasify_other (c : SClass) (w : Phase) : Except PyErr (Option StatusVal) :=
  if c = .internal then .ok (Status.status .internal STATUS_FAILED (some w))
  else clasifyOtherBase c w

/-- StatusUvm._clasify_ToolError report scanning (statuses.py:387-409):
skip the header line, then per line test for the DUT / GOLD / DUT-and-GOLD
timeout markers in that order. -/
def uvmScanLines : List String → Option Nat
  | [] => none
  | line :: rest =>
    if strContains line "timeout (DUT)" then some 10
    else if strContains line "timeout (GOLD)" then some 11
    else if strContains line "timeout (DUT and GOLD)" then some 12
    else uvmScanLines rest

/-- Class-level _clasify_ToolError: the base method returns
cls.status(STATUS_GENERALERROR, report.when) (statuses.py:178-180);
StatusUvm first consults the uvm report file and returns a specific
timeout status when a marker is found, else defers to the base method. -/
def cls_clasify_ToolError (c : SClass) (report : Report) : Option StatusVal :=
  if c = .uvm then
    match report.uvmReport with
    | some lines =>
      match uvmScanLines (lines.drop 1) with
      | some sid => Status.status .uvm sid (some report.whenPhase)
      | none => Status.status .uvm STATUS_GENERALERROR (some report.whenPhase)
    | none => Status.status .uvm STATUS_GENERALERROR (some report.whenPhase)
  else Status.status c STATUS_GENERALERROR (some report.whenPhase)

/-- Dispatch on a matched status class (internal.py:602-604):
getattr(cls, '_clasify_' + typename, cls._clasify_other).  The attribute
names starting with '_clasify_' on a status class are ToolBuildError,
ToolError, xml_ToolError, xml_other, other (plus InvalidCommand on
StatusInternal); a typename of 'xml_ToolError' or 'xml_other' would pick
a classmethod of the wrong arity and raise TypeError at the call;
'other' picks the generic handler explicitly. -/
def classDispatch (c : SClass) (report : Report) (exc : Exc) :
    Except PyErr (Option StatusVal) :=
  if exc.typename = "ToolBuildError" then
    .ok (Status.status c STATUS_BUILDERROR (some report.whenPhase))
  else if exc.typename = "ToolError" then
    .ok (cls_clasify_ToolError c report)
  else if exc.typename = "InvalidCommand" ∧ c = .internal then
    .ok (Status.status .internal 10 (some report.whenPhase))
  else if exc.typename = "xml_ToolError" ∨ exc.typename = "xml_other" then
    .error .typeError
  else
    cls_clasify_other c report.whenPhase

/-- The search of re.search('\s(\w+)\.', line): find the first position
with a whitespace character followed by a non-empty word run followed by
a literal dot; the group is the word run. -/
def searchWordDot : List Char → Option (List Char)
  | [] => none
  | c :: rest =>
    if pySpaceChar c then
      (let w := rest.takeWhile pyWordChar
       if !w.isEmpty &&
           (match rest.drop w.length with
            | d :: _ => d = '.'
            | [] => false) then
         some w
       else searchWordDot rest)
    else searchWordDot rest

/-- ITEM2TITLE (lib package init, lines 119-142), in OrderedDict order. -/
def ITEM2TITLE : List (String × String) :=
  [("model", "Model Compilation"),
   ("semantics", "semantics"),
   ("asm", "Assembler"),
   ("dsm", "Disassembler"),
   ("compiler", "C/C++ Compiler"),
   ("libs", "SDK Libraries"),
   ("sim", "Simulator"),
   ("cosim", " Co-simulator"),
   ("dbg", "Debugger"),
   ("prof", "Profiler"),
   ("random_asm", "Random Assembler Programs"),
   ("doc", "Documentation"),
   ("_sdk_tools", "SDK Tools"),
   ("sdk", "SDK"),
   ("rtl", "RTL"),
   ("_uvm_fu", "UVM Verification of functional units"),
   ("uvm", "UVM Verification"),
   ("_hdk_tools", "HDK Tools"),
   ("hdk", "HDK"),
   ("publish_ip", "IP Publication"),
   ("_remove_options", "Remove Options")]

/-- The stderr half of _failed_task_name (internal.py:638-644): scan the
lines in reverse; a line starting with 'fatal:' whose first
whitespace-word-dot match exists yields the word. -/
def taskFromStderr : List String → Option String
  | [] => none
  | l :: rest =>
    if pyStartsWith l "fatal:" then
      match searchWordDot l.data with
      | some w => some (String.mk w)
      | none => taskFromStderr rest
    else taskFromStderr rest

/-- The stdout half of _failed_task_name (internal.py:645-655): scan the
lines in reverse; a line starting with '.' yields the first ITEM2TITLE
task whose title occurs in the line. -/
def taskFromStdout : List String → Option String
  | [] => none
  | l :: rest =>
    if pyStartsWith l "." then
      match ITEM2TITLE.find? (fun kv => strContains l kv.2) with
      | some kv => some kv.1
      | none => taskFromStdout rest
    else taskFromStdout rest

/-- StatusClasifier._failed_task_name (internal.py:625-655) for an
exception dispatched as ToolBuildError (the doit.InvalidCommand
isinstance test is necessarily false there, since the dispatch already
matched the ToolBuildError type name). -/
def failedTaskName (exc : Exc) : Option String :=
  match taskFromStderr exc.stderrLines.reverse with
  | some w => some w
  | none => taskFromStdout exc.stdoutLines.reverse

/-- Status.search_task (statuses.py:117-121): match the class
TASK_PATTERN against a task name.  Classes without a TASK_PATTERN
(the base default None: StatusBootstrap, StatusInternal, StatusDebugger)
never match; '^x$' patterns are exact matches and the '^_semextr_' and
'^_libs_' patterns are prefix matches under re.search. -/
def searchTask : SClass → String → Bool
  | .bootstrap, _ => false
  | .internal, _ => false
  | .debugger, _ => false
  | .model, s => s = "model"
  | .semantics, s => pyStartsWith s "_semextr_"
  | .assembler, s => s = "asm"
  | .disassembler, s => s = "dsm"
  | .compiler, s => s = "compiler"
  | .libraries, s => pyStartsWith s "_libs_"
  | .simulator, s => s = "sim"
  | .profiler, s => s = "prof"
  | .cosimulator, s => s = "cosim"
  | .randomAsm, s => s = "random_asm"
  | .rtl, s => s = "rtl"
  | .uvm, s => s = "uvm"
  | .uvmFu, s => s = "_uvm_fu"
  | .tools, s => s = "_sdk_tools" || s = "_hdk_tools"

/-- StatusClasifier._clasify_ToolBuildError (internal.py:665-678):
recover the failed task name, find the class whose TASK_PATTERN matches
it (the patterns match pairwise-disjoint task names, so set order does
not matter), and use its _clasify_ToolBuildError; otherwise fall back to
StatusInternal.status(STATUS_BUILDERROR, report.when). -/
def clasifier_ToolBuildError (report : Report) (exc : Exc) : Option StatusVal :=
  match failedTaskName exc with
  | some item_name =>
    (match statusClasses.find? (fun c => searchTask c item_name) with
     | some c => Status.status c STATUS_BUILDERROR (some report.whenPhase)
     | none => Status.status .internal STATUS_BUILDERROR (some report.whenPhase))
  | none => Status.status .internal STATUS_BUILDERROR (some report.whenPhase)

/-- Dispatch when no status class matched and the classifier instance
itself is the handler object (internal.py:599-604): its '_clasify_'
attributes are _clasify, _clasify_xml, _clasify_other,
_clasify_InvalidCommand and _clasify_ToolBuildError; a typename of 'xml'
would pick a method of the wrong arity and raise TypeError at the call;
everything else falls back to _clasify_other, which defers to
StatusInternal._clasify_other. -/
def clasifierDispatch (report : Report) (exc : Exc) :
    Except PyErr (Option StatusVal) :=
  if exc.typename = "ToolBuildError" then
    .ok (clasifier_ToolBuildError report exc)
  else if exc.typename = "InvalidCommand" then
    .ok (Status.status .internal 10 (some report.whenPhase))
  else if exc.typename = "xml" then
    .error .typeError
  else
    .ok (Status.status .internal STATUS_FAILED (some report.whenPhase))

/-- StatusClasifier._clasify (internal.py:589-604): a passed report
yields the fixed OK status; otherwise the class registered for
report.tool (when the attribute is present and matches) handles the
exception, else the classifier itself does. -/
def clasifyLive (report : Report) (exc : Exc) : Except PyErr (Option StatusVal) :=
  if report.passed then .ok getPassedStatus
  else
    match report.tool.bind find_status_class with
    | some c => classDispatch c report exc
    | none => clasifierDispatch report exc

/-! ### The offline (from-xml) path -/

/-- A serialized test result (internal.py:606-623): skipped and passed
flags plus the captured log text. -/
structure XmlResult where
  skipped : Bool
  passed : Bool
  log : String

/-- One scan step of re.search('\s' + name + '\s', log.lower()): the
name surrounded by whitespace characters (the ITEM_NAMEs contain no
regex metacharacters). -/
def fuzzyPadded (nm : List Char) : List Char → Bool
  | [] => false
  | c :: rest =>
    (pySpaceChar c && nm.isPrefixOf rest &&
      (match rest.drop nm.length with
       | d :: _ => pySpaceChar d
       | [] => false))
    || fuzzyPadded nm rest

/-- StatusClasifier.find_status_class with precise=False against a log
text (internal.py:571-572). -/
def fuzzyNameMatch (name log : String) : Bool :=
  fuzzyPadded name.data (log.data.map Char.toLower)

/-- The backtracking tail of re.search('E\s+(?P<excname>\w+(Error|Exception))'):
within the word run w, \w+ is greedy, so the group is the longest prefix
of w (with at least one character before the suffix) that ends in
'Error', or failing that in 'Exception' (the alternation is tried in
that order at each backtracking step). -/
def excSuffixGo (w : List Char) : Nat → Option (List Char)
  | 0 => none
  | l + 1 =>
    if "Error".data.isPrefixOf (w.drop (l + 1)) then some (w.take (l + 1 + 5))
    else if "Exception".data.isPrefixOf (w.drop (l + 1)) then some (w.take (l + 1 + 9))
    else excSuffixGo w l

/-- The scan of re.search('E\s+(?P<excname>\w+(Error|Exception))', log):
at each position, a literal 'E', at least one whitespace character, then
a word run containing an Error/Exception-suffixed group; on failure the
scan restarts one character further. -/
def matchExceptionGo : List Char → Option String
  | [] => none
  | c :: rest =>
    if c = 'E' then
      (let sp := rest.takeWhile pySpaceChar
       if !sp.isEmpty then
         (let w := (rest.drop sp.length).takeWhile pyWordChar
          match excSuffixGo w w.length with
          | some n => some (String.mk n)
          | none => matchExceptionGo rest)
       else matchExceptionGo rest)
    else matchExceptionGo rest

def matchException (log : String) : Option String :=
  matchExceptionGo log.data

/-- The method _clasify_xml_ToolError: the base method maps a 'has timed out'
occurrence in the log to STATUS_TIMEOUT, else STATUS_GENERALERROR
(statuses.py:182-189); StatusDebugger overrides the marker to 'Timeout'
(statuses.py:338-345); both construct the status in the call phase. -/
def xml_ToolError (c : SClass) (log : String) : Option StatusVal :=
  if c = .debugger then
    Status.status c
      (if strContains log "Timeout" then STATUS_TIMEOUT else STATUS_GENERALERROR)
      (some .call)
  else
    Status.status c
      (if strContains log "has timed out" then STATUS_TIMEOUT else STATUS_GENERALERROR)
      (some .call)

/-- The method _clasify_xml_other (statuses.py:199-202). -/
def xml_other (c : SClass) : Option StatusVal :=
  Status.status c STATUS_GENERALERROR (some .call)

/-- StatusClasifier._clasify_xml (internal.py:606-623): skipped yields
None; passed yields the OK status; otherwise, when a class fuzzy-matches
the log and an exception name is recovered from it, dispatch to
'_clasify_xml_' + excname with _clasify_xml_other as the fallback (the
recovered name always ends in Error or Exception, so only the ToolError
handler can be hit specifically); else the generic call-phase failure
status. -/
def clasifyXml (r : XmlResult) : Option StatusVal :=
  if r.skipped then none
  else if r.passed then getPassedStatus
  else
    match statusClasses.find? (fun c => fuzzyNameMatch (ITEM_NAME c) r.log),
        matchException r.log with
    | some c, some excname =>
      if excname = "ToolError" then xml_ToolError c r.log
      else xml_other c
    | _, _ => getGeneralFailedStatus (some .call)

/-- The two input shapes of StatusClasifier.clasify (internal.py:583-587). -/
inductive ClasifyInput where
  | live (report : Report) (exc : Exc)
  | xml (r : XmlResult)

/-- StatusClasifier.clasify.  The xml path raises nothing (its inputs
are total strings/booleans here); the live path can raise the TypeError
of clasifyOtherBase. -/
def clasify : ClasifyInput → Except PyErr (Option StatusVal)
  | .live report exc => clasifyLive report exc
  | .xml r => .ok (clasifyXml r)

/-! # Theorems -/

/-! ## Auxiliary lemmas -/

lemma foldl_max_choice (l : List Int) : ∀ c : Int, l.foldl max c = c ∨ l.foldl max c ∈ l := by
  induction l with
  | nil => intro c; left; rfl
  | cons d t ih =>
    intro c
    rw [List.foldl_cons]
    rcases ih (max c d) with h | h
    · rcases max_choice c d with hm | hm
      · left; rw [h, hm]
      · right; rw [h, hm]; exact List.mem_cons_self _ _
    · right; exact List.mem_cons_of_mem _ h

lemma le_foldl_max (l : List Int) : ∀ c : Int, c ≤ l.foldl max c ∧ ∀ x ∈ l, x ≤ l.foldl max c := by
  induction l with
  | nil => intro c; exact ⟨le_refl c, by simp⟩
  | cons d t ih =>
    intro c
    obtain ⟨h1, h2⟩ := ih (max c d)
    rw [List.foldl_cons]
    refine ⟨le_trans (le_max_left c d) h1, ?_⟩
    intro x hx
    rcases List.mem_cons.mp hx with rfl | hx
    · exact le_trans (le_max_right c x) h1
    · exact h2 x hx

lemma listMaxInt_spec (l : List Int) (h : l ≠ []) :
    listMaxInt l ∈ l ∧ ∀ x ∈ l, x ≤ listMaxInt l := by
  cases l with
  | nil => exact absurd rfl h
  | cons c cs =>
    constructor
    · show cs.foldl max c ∈ c :: cs
      rcases foldl_max_choice cs c with h1 | h1
      · rw [h1]; exact List.mem_cons_self _ _
      · exact List.mem_cons_of_mem _ h1
    · intro x hx
      obtain ⟨h1, h2⟩ := le_foldl_max cs c
      rcases List.mem_cons.mp hx with rfl | hx
      · exact h1
      · exact h2 x hx

lemma runExecutedCodes_ne_nil (plan : List Int) (ignore : Bool) (h : plan ≠ []) :
    runExecutedCodes plan ignore ≠ [] := by
  cases plan with
  | nil => exact absurd rfl h
  | cons c rest =>
    rw [runExecutedCodes]
    split <;> simp

lemma skip_cond_eq (filters : List GenFilter) (c : Comb) :
    (!filters.isEmpty && !(filters.all fun f => f.pred c)) = !(keepComb filters c) := by
  cases filters <;> simp [keepComb]

lemma generate_id_all_empty (c : Comb) (idg : String → Val → Option String)
    (h : ∀ k v, idg k v = none ∨ idg k v = some "") : generate_id c idg = "" := by
  rw [generate_id]
  have he : (c.filterMap fun kv =>
      match idg kv.1 kv.2 with
      | none => none
      | some s => if s = "" then none else some s) = [] := by
    induction c with
    | nil => rfl
    | cons kv rest ih =>
      rw [List.filterMap_cons]
      rcases h kv.1 kv.2 with hn | hn <;> simp [hn, ih]
  rw [he]
  rfl

/-- Whatever genLoop returns successfully, the combinations part is the
accumulator followed by the retained suffix (filters are conjoined). -/
lemma genLoop_ok_shape (idg : String → Val → Option String) (filters : List GenFilter)
    (l : List Comb) : ∀ (combs : List Comb) (ids : List String) (cs : List Comb)
    (out : List String),
    genLoop idg filters l combs ids = .ok (cs, out) →
    cs = combs ++ l.filter (keepComb filters) := by
  induction l with
  | nil =>
    intro combs ids cs out h
    simp only [genLoop, Except.ok.injEq, Prod.mk.injEq] at h
    simp [← h.1]
  | cons c rest ih =>
    intro combs ids cs out h
    rw [genLoop, skip_cond_eq] at h
    rw [List.filter_cons]
    rcases Bool.eq_false_or_eq_true (keepComb filters c) with hk | hk
    · rw [hk] at h
      rw [if_neg (by simp)] at h
      rw [if_pos hk]
      split at h
      · exact Except.noConfusion h
      · have hrec := ih (combs ++ [c]) (ids ++ [generate_id c idg]) cs out h
        simpa only [List.append_assoc, List.singleton_append] using hrec
    · rw [hk] at h
      rw [if_pos (by simp)] at h
      rw [if_neg (by simp [hk])]
      exact ih combs ids cs out h

/-- When no two retained combinations (accumulator and suffix) share a
non-empty id, genLoop succeeds and returns exactly the retained
combinations and their ids. -/
lemma genLoop_ok (idg : String → Val → Option String) (filters : List GenFilter)
    (l : List Comb) : ∀ (combs : List Comb) (ids : List String),
    ids = combs.map (generate_id · idg) →
    ((ids ++ (l.filter (keepComb filters)).map (generate_id · idg)).filter
      (fun s => s ≠ "")).Nodup →
    genLoop idg filters l combs ids =
      .ok (combs ++ l.filter (keepComb filters),
        ids ++ (l.filter (keepComb filters)).map (generate_id · idg)) := by
  induction l with
  | nil =>
    intro combs ids _ _
    simp [genLoop]
  | cons c rest ih =>
    intro combs ids hids hnd
    subst hids
    rw [genLoop, skip_cond_eq]
    rcases Bool.eq_false_or_eq_true (keepComb filters c) with hk | hk
    · rw [hk]
      rw [if_neg (by simp)]
      have h1 : List.filter (keepComb filters) (c :: rest) =
          c :: List.filter (keepComb filters) rest := by
        rw [List.filter_cons, if_pos hk]
      rw [h1] at hnd ⊢
      rw [List.map_cons] at hnd ⊢
      have hnotdup : ¬ (generate_id c idg ≠ "" ∧
          generate_id c idg ∈ combs.map (generate_id · idg)) := by
        rintro ⟨hne, hin⟩
        have h2 := hnd
        rw [List.filter_append, List.nodup_append] at h2
        have hmem1 : generate_id c idg ∈
            (combs.map (generate_id · idg)).filter (fun s => decide (s ≠ "")) :=
          List.mem_filter.mpr ⟨hin, by simp [hne]⟩
        have hmem2 : generate_id c idg ∈
            (generate_id c idg ::
              (rest.filter (keepComb filters)).map (generate_id · idg)).filter
              (fun s => decide (s ≠ "")) :=
          List.mem_filter.mpr ⟨List.mem_cons_self _ _, by simp [hne]⟩
        exact h2.2.2 hmem1 hmem2
      rw [if_neg hnotdup]
      have hrec := ih (combs ++ [c]) (combs.map (generate_id · idg) ++ [generate_id c idg])
        (by simp)
        (by simpa only [List.append_assoc, List.singleton_append] using hnd)
      rw [hrec]
      simp only [List.append_assoc, List.singleton_append]
    · rw [hk]
      rw [if_pos (by simp)]
      have h1 : List.filter (keepComb filters) (c :: rest) =
          List.filter (keepComb filters) rest := by
        rw [List.filter_cons, if_neg (by simp [hk])]
      rw [h1] at hnd ⊢
      exact ih combs _ rfl hnd

/-- When the retained suffix introduces a duplicate non-empty id,
genLoop aborts with a duplicateId error whose fields name the shared id
and two retained combinations deriving it. -/
lemma genLoop_error (idg : String → Val → Option String) (filters : List GenFilter)
    (l : List Comb) : ∀ (combs : List Comb) (ids : List String),
    ids = combs.map (generate_id · idg) →
    (ids.filter (fun s => s ≠ "")).Nodup →
    ¬ ((ids ++ (l.filter (keepComb filters)).map (generate_id · idg)).filter
      (fun s => s ≠ "")).Nodup →
    ∃ id c1 c2, genLoop idg filters l combs ids = .error (.duplicateId id c1 c2) ∧
      id ≠ "" ∧ generate_id c1 idg = id ∧ generate_id c2 idg = id ∧
      (c1 ∈ l ∧ keepComb filters c1 = true) ∧
      (c2 ∈ combs ∨ (c2 ∈ l ∧ keepComb filters c2 = true)) := by
  induction l with
  | nil =>
    intro combs ids _ hnd hdup
    simp only [List.filter_nil, List.map_nil, List.append_nil] at hdup
    exact absurd hnd hdup
  | cons c rest ih =>
    intro combs ids hids hnd hdup
    subst hids
    rw [genLoop, skip_cond_eq]
    rcases Bool.eq_false_or_eq_true (keepComb filters c) with hk | hk
    · rw [hk]
      rw [if_neg (by simp)]
      have h1 : List.filter (keepComb filters) (c :: rest) =
          c :: List.filter (keepComb filters) rest := by
        rw [List.filter_cons, if_pos hk]
      rw [h1, List.map_cons] at hdup
      by_cases hcase : generate_id c idg ≠ "" ∧
          generate_id c idg ∈ combs.map (generate_id · idg)
      · -- the duplicate fires on this combination
        rw [if_pos hcase]
        obtain ⟨hne, hin⟩ := hcase
        have hltids : (combs.map (generate_id · idg)).indexOf (generate_id c idg) <
            (combs.map (generate_id · idg)).length :=
          List.indexOf_lt_length.mpr hin
        have hlt : (combs.map (generate_id · idg)).indexOf (generate_id c idg) <
            combs.length := by
          simpa using hltids
        have hc2 : combs.getD
            ((combs.map (generate_id · idg)).indexOf (generate_id c idg)) c =
            combs[(combs.map (generate_id · idg)).indexOf (generate_id c idg)] := by
          rw [List.getD_eq_getElem?_getD, List.getElem?_eq_getElem hlt]
          rfl
        have hgc2 := List.getElem_indexOf hltids
        rw [List.getElem_map] at hgc2
        refine ⟨generate_id c idg, c, _, rfl, hne, rfl, ?_, ?_, ?_⟩
        · rw [hc2]
          exact hgc2
        · exact ⟨List.mem_cons_self _ _, hk⟩
        · left
          rw [hc2]
          exact List.getElem_mem hlt
      · rw [if_neg hcase]
        push_neg at hcase
        have hnd' : ((combs.map (generate_id · idg) ++ [generate_id c idg]).filter
            (fun s => s ≠ "")).Nodup := by
          rw [List.filter_append, List.nodup_append]
          refine ⟨hnd, List.Nodup.filter _ (List.nodup_singleton _), ?_⟩
          intro a ha hb
          rw [List.mem_filter] at ha hb
          have hasing : a = generate_id c idg := by
            simpa using List.mem_singleton.mp hb.1
          subst hasing
          have hane : generate_id c idg ≠ "" := by simpa using ha.2
          exact hcase hane ha.1
        obtain ⟨id, c1, c2, hout, hne, hg1, hg2, hc1, hc2⟩ :=
          ih (combs ++ [c]) (combs.map (generate_id · idg) ++ [generate_id c idg])
            (by simp) hnd'
            (by simpa only [List.append_assoc, List.singleton_append] using hdup)
        refine ⟨id, c1, c2, hout, hne, hg1, hg2,
          ⟨List.mem_cons_of_mem _ hc1.1, hc1.2⟩, ?_⟩
        rcases hc2 with hm | hm
        · rcases List.mem_append.mp hm with hm2 | hm2
          · exact Or.inl hm2
          · have hceq : c2 = c := List.mem_singleton.mp hm2
            subst hceq
            exact Or.inr ⟨List.mem_cons_self _ _, hk⟩
        · exact Or.inr ⟨List.mem_cons_of_mem _ hm.1, hm.2⟩
    · rw [hk]
      rw [if_pos (by simp)]
      have h1 : List.filter (keepComb filters) (c :: rest) =
          List.filter (keepComb filters) rest := by
        rw [List.filter_cons, if_neg (by simp [hk])]
      rw [h1] at hdup
      obtain ⟨id, c1, c2, hout, hne, hg1, hg2, hc1, hc2⟩ := ih combs _ rfl hnd hdup
      refine ⟨id, c1, c2, hout, hne, hg1, hg2,
        ⟨List.mem_cons_of_mem _ hc1.1, hc1.2⟩, ?_⟩
      rcases hc2 with hm | hm
      · exact Or.inl hm
      · exact Or.inr ⟨List.mem_cons_of_mem _ hm.1, hm.2⟩


/-- generate_combinations for a non-empty mapping with well-formed
filters reduces to the generation loop over the full product. -/
lemma generate_combinations_unfold (m : List (String × CandVals))
    (idg : Option (String → Val → Option String)) (filters : List GenFilter)
    (hm : m ≠ []) (hf : ∀ f ∈ filters, 1 ≤ f.argCount ∧ f.argCount ≤ 2) :
    generate_combinations m idg filters =
      genLoop (idg.getD default_generator) filters (fullCombs m) [] [] := by
  rw [generate_combinations, if_neg (by simpa using hm)]
  have hfind : filters.find? (fun f => ¬ (1 ≤ f.argCount ∧ f.argCount ≤ 2)) = none := by
    rw [List.find?_eq_none]
    intro f hfm
    have hgood := hf f hfm
    simp
    omega
  rw [hfind]
  rfl

lemma sum_map_const {α : Type} (l : List α) (n : ℕ) :
    (l.map fun _ => n).sum = l.length * n := by
  induction l with
  | nil => simp
  | cons a t ih => simp [ih, Nat.succ_mul, Nat.add_comm]

lemma pyProduct_length (ls : List (List Val)) :
    (pyProduct ls).length = (ls.map List.length).prod := by
  induction ls with
  | nil => rfl
  | cons vs rest ih =>
    simp only [pyProduct, List.length_flatMap, List.map_cons, List.prod_cons]
    have h1 : (vs.map (List.length ∘ fun v => (pyProduct rest).map (fun x => v :: x)))
        = vs.map (fun _ => (pyProduct rest).length) := by
      apply List.map_congr_left
      intro a _
      simp
    rw [h1, sum_map_const, ih]

lemma fullCombs_length (m : List (String × CandVals)) :
    (fullCombs m).length = (m.map fun kv => kv.2.toList.length).prod := by
  rw [fullCombs, List.length_map, pyProduct_length, List.map_map]
  rfl

/-! ## C7: Cartesian-product semantics of generate_combinations -/

/-- C7: generate_combinations enumerates the Cartesian product over the
candidate-value sequences of all keys (scalars count as one-element
sequences): any successful unfiltered call returns exactly the full
product, whose length is the product of the candidate counts; the two
concrete inputs of the claim give 4 and 2 combinations, and the empty
mapping returns ([], []) rather than an error. -/
theorem C7_cartesian_product :
    (∀ (m : List (String × CandVals)) (idg : Option (String → Val → Option String)),
      m ≠ [] → ∀ cs ids, generate_combinations m idg [] = .ok (cs, ids) →
        cs = fullCombs m) ∧
    (∀ m : List (String × CandVals),
      (fullCombs m).length = (m.map fun kv => kv.2.toList.length).prod) ∧
    (∃ cs ids, generate_combinations
        [("a", .seq [.int 1, .int 2]), ("b", .seq [.int 3, .int 4])] none [] =
        .ok (cs, ids) ∧ cs.length = 4) ∧
    (∃ cs ids, generate_combinations
        [("a", .seq [.int 1, .int 2]), ("b", .scalar (.int 3))] none [] =
        .ok (cs, ids) ∧ cs.length = 2) ∧
    generate_combinations [] none [] = .ok ([], []) := by
  refine ⟨?_, fullCombs_length, ⟨_, _, rfl, rfl⟩, ⟨_, _, rfl, rfl⟩, rfl⟩
  intro m idg hm cs ids h
  rw [generate_combinations_unfold m idg [] hm
    (fun f hf => absurd hf (List.not_mem_nil f))] at h
  have hshape := genLoop_ok_shape (idg.getD default_generator) [] (fullCombs m) [] [] cs ids h
  have hfil : (fullCombs m).filter (keepComb []) = fullCombs m :=
    List.filter_eq_self.mpr fun a _ => by simp [keepComb]
  rw [hfil] at hshape
  simpa using hshape

/-- Witness for C7 at a concrete non-empty mapping. -/
theorem C7_cartesian_product_witness :
    ([[("a", Val.int 1)], [("a", Val.int 2)]] : List Comb) =
      fullCombs [("a", CandVals.seq [.int 1, .int 2])] :=
  C7_cartesian_product.1 [("a", CandVals.seq [.int 1, .int 2])] none (by decide)
    [[("a", Val.int 1)], [("a", Val.int 2)]] ["a:1", "a:2"] rfl

/-! ## C8: filter conjunction and the arity assert -/

/-- C8 (amended): a combination is retained iff every supplied filter
returns true on it (any successful call returns exactly the
all-filters-pass subset of the product); and a filter with an argument
count other than 1 or 2 makes the call fail eagerly with the arity error
— before any combination is generated — PROVIDED the input mapping is
non-empty: an empty mapping returns ([], []) before filters are
inspected (see the counterexample).  The concrete conjunct replays the
claim: an always-true filter conjoined with one excluding a=1 retains
only the a=2 combination. -/
theorem C8_filter_conjunction_and_arity :
    (∀ (m : List (String × CandVals)) (idg : Option (String → Val → Option String))
        (filters : List GenFilter),
      (∀ f ∈ filters, 1 ≤ f.argCount ∧ f.argCount ≤ 2) → m ≠ [] →
      ∀ cs ids, generate_combinations m idg filters = .ok (cs, ids) →
        cs = (fullCombs m).filter (keepComb filters)) ∧
    (∀ (m : List (String × CandVals)) (idg : Option (String → Val → Option String))
        (filters : List GenFilter) (f₀ : GenFilter), m ≠ [] →
      filters.find? (fun f => ¬ (1 ≤ f.argCount ∧ f.argCount ≤ 2)) = some f₀ →
      generate_combinations m idg filters = .error (.badFilterArity f₀.name)) ∧
    generate_combinations [("a", .seq [.int 1, .int 2])] none
      [⟨"always_true", 1, fun _ => true⟩,
       ⟨"exclude_a1", 2, fun c => decide (lookupAssoc c "a" ≠ some (Val.int 1))⟩] =
      .ok ([[("a", Val.int 2)]], ["a:2"]) := by
  refine ⟨?_, ?_, rfl⟩
  · intro m idg filters hf hm cs ids h
    rw [generate_combinations_unfold m idg filters hm hf] at h
    simpa using genLoop_ok_shape (idg.getD default_generator) filters (fullCombs m) [] []
      cs ids h
  · intro m idg filters f₀ hm hfind
    rw [generate_combinations, if_neg (by simpa using hm), hfind]

/-- C8 counterexample: an arity-0 filter together with an empty mapping
does NOT fail — the claim's "fails eagerly with an error" does not hold
there, because the empty-input early return precedes the arity assert. -/
theorem C8_counterexample :
    generate_combinations [] none [⟨"zero_arity", 0, fun _ => true⟩] = .ok ([], []) := rfl

/-- Witness for C8: a 3-argument filter on a non-empty mapping raises
the arity error. -/
theorem C8_filter_conjunction_and_arity_witness :
    generate_combinations [("a", CandVals.scalar (.int 1))] none
      [⟨"bad_filter", 3, fun _ => true⟩] = .error (.badFilterArity "bad_filter") :=
  C8_filter_conjunction_and_arity.2.1 [("a", CandVals.scalar (.int 1))] none
    [⟨"bad_filter", 3, fun _ => true⟩] ⟨"bad_filter", 3, fun _ => true⟩
    (by decide) rfl

/-! ## C4: duplicate-id detection -/

/-- C4 (amended): whenever two retained combinations derive the same
NON-EMPTY id, generate_combinations raises the duplicate-id ValueError,
whose payload carries the shared id and two retained combinations
deriving it; in particular the mapping a -> [1, 1] with a constant id
function "x" raises.  (For the empty id the check is skipped — see the
counterexample and C10.) -/
theorem C4_duplicate_id_error :
    (∀ (m : List (String × CandVals)) (idg : Option (String → Val → Option String))
        (filters : List GenFilter),
      (∀ f ∈ filters, 1 ≤ f.argCount ∧ f.argCount ≤ 2) →
      ¬ (((retainedIds m idg filters).filter (fun s => s ≠ "")).Nodup) →
      ∃ id c1 c2, generate_combinations m idg filters = .error (.duplicateId id c1 c2) ∧
        id ≠ "" ∧ generate_id c1 (idg.getD default_generator) = id ∧
        generate_id c2 (idg.getD default_generator) = id ∧
        c1 ∈ retainedCombs m filters ∧ c2 ∈ retainedCombs m filters) ∧
    generate_combinations [("a", CandVals.seq [.int 1, .int 1])]
        (some fun _ _ => some "x") [] =
      .error (.duplicateId "x" [("a", Val.int 1)] [("a", Val.int 1)]) := by
  refine ⟨?_, rfl⟩
  intro m idg filters hf hdup
  by_cases hm : m = []
  · exfalso
    apply hdup
    subst hm
    have hfc : fullCombs [] = [[]] := rfl
    rw [retainedIds, retainedCombs, hfc]
    rcases Bool.eq_false_or_eq_true (keepComb filters []) with hk | hk
    · rw [List.filter_cons, if_pos hk, List.filter_nil, List.map_cons, List.map_nil]
      have hgid : generate_id [] (idg.getD default_generator) = "" := rfl
      rw [hgid]
      decide
    · rw [List.filter_cons, if_neg (by simp [hk]), List.filter_nil, List.map_nil]
      decide
  · obtain ⟨id, c1, c2, hout, hne, h1, h2, hc1, hc2⟩ :=
      genLoop_error (idg.getD default_generator) filters (fullCombs m) [] [] rfl
        (by simp) (by simpa [retainedIds, retainedCombs] using hdup)
    refine ⟨id, c1, c2, ?_, hne, h1, h2, ?_, ?_⟩
    · rw [generate_combinations_unfold m idg filters hm hf]
      exact hout
    · exact List.mem_filter.mpr ⟨hc1.1, hc1.2⟩
    · rcases hc2 with hm2 | hm2
      · exact absurd hm2 (List.not_mem_nil c2)
      · exact List.mem_filter.mpr ⟨hm2.1, hm2.2⟩

/-- C4 counterexample: two retained combinations deriving the SAME id
(the empty one, every pair dropped) do not raise — generation succeeds
with two identical empty ids, so the claim's unrestricted "whenever two
retained combinations derive the same ID ... raises" is false. -/
theorem C4_counterexample :
    generate_combinations [("a", CandVals.seq [.int 1, .int 1])]
        (some fun _ _ => none) [] =
      .ok ([[("a", Val.int 1)], [("a", Val.int 1)]], ["", ""]) := rfl

/-- Witness for C4 at the claim's own concrete input. -/
theorem C4_duplicate_id_error_witness :
    ∃ id c1 c2,
      generate_combinations [("a", CandVals.seq [.int 1, .int 1])]
          (some fun _ _ => some "x") [] = .error (.duplicateId id c1 c2) ∧
        id ≠ "" ∧
        generate_id c1 ((some fun _ _ => some "x" :
          Option (String → Val → Option String)).getD default_generator) = id ∧
        generate_id c2 ((some fun _ _ => some "x" :
          Option (String → Val → Option String)).getD default_generator) = id ∧
        c1 ∈ retainedCombs [("a", CandVals.seq [.int 1, .int 1])] [] ∧
        c2 ∈ retainedCombs [("a", CandVals.seq [.int 1, .int 1])] [] :=
  C4_duplicate_id_error.1 [("a", CandVals.seq [.int 1, .int 1])]
    (some fun _ _ => some "x") [] (by simp) (by decide)

/-! ## C10: the duplicate check skips empty ids -/

/-- C10: when the id function yields None or the empty string on every
pair, every retained combination receives the empty-string id and
generation succeeds without raising, returning one (identical, empty)
id per retained combination; in particular a -> [1, 1] with a constant
empty id yields two combinations and ids ["", ""]. -/
theorem C10_empty_ids_skip_duplicate_check :
    (∀ (m : List (String × CandVals)) (idg : String → Val → Option String)
        (filters : List GenFilter),
      m ≠ [] →
      (∀ k v, idg k v = none ∨ idg k v = some "") →
      (∀ f ∈ filters, 1 ≤ f.argCount ∧ f.argCount ≤ 2) →
      generate_combinations m (some idg) filters =
        .ok (retainedCombs m filters, (retainedCombs m filters).map fun _ => "")) ∧
    generate_combinations [("a", CandVals.seq [.int 1, .int 1])]
        (some fun _ _ => some "") [] =
      .ok ([[("a", Val.int 1)], [("a", Val.int 1)]], ["", ""]) := by
  refine ⟨?_, rfl⟩
  intro m idg filters hm hidg hf
  rw [generate_combinations_unfold m (some idg) filters hm hf]
  simp only [Option.getD_some]
  have hmap : ((fullCombs m).filter (keepComb filters)).map (generate_id · idg) =
      ((fullCombs m).filter (keepComb filters)).map (fun _ => "") :=
    List.map_congr_left fun c _ => generate_id_all_empty c idg hidg
  have hnodup : ((([] : List String) ++
      ((fullCombs m).filter (keepComb filters)).map (generate_id · idg)).filter
      (fun s => s ≠ "")).Nodup := by
    rw [List.nil_append, hmap]
    have hnil : (((fullCombs m).filter (keepComb filters)).map
        (fun _ => ("" : String))).filter (fun s => decide (s ≠ "")) = [] := by
      rw [List.filter_eq_nil_iff]
      intro a ha
      rcases List.mem_map.mp ha with ⟨c, _, hc⟩
      simp [← hc]
    rw [hnil]
    exact List.nodup_nil
  have hok := genLoop_ok idg filters (fullCombs m) [] [] rfl hnodup
  rw [hok, hmap]
  rw [retainedCombs]
  simp

/-- Witness for C10 at a concrete mapping with an all-None id function. -/
theorem C10_empty_ids_skip_duplicate_check_witness :
    generate_combinations [("b", CandVals.seq [.int 2, .int 2])]
        (some fun _ _ => none) [] =
      .ok (retainedCombs [("b", CandVals.seq [.int 2, .int 2])] [],
        (retainedCombs [("b", CandVals.seq [.int 2, .int 2])] []).map fun _ => "") :=
  C10_empty_ids_skip_duplicate_check.1 [("b", CandVals.seq [.int 2, .int 2])]
    (fun _ _ => none) [] (by decide) (fun _ _ => Or.inl rfl) (by simp)

/-! ## C1: exit-code aggregation of the driver loop -/

/-- C1: over the exit codes of the (branch, configuration) subprocess
executions, the driver's final exit code is the maximum code among the
executed prefix (it is one of the observed codes and bounds them all);
an execution exiting with EXIT_TESTSFAILED (1) — or EXIT_OK — lets the
loop continue with the next pair; an execution exiting with any other
code (interrupted / internal error / ...) with --ignore-internal-errors
unset aborts all remaining pairs immediately, so the codes observed stop
there; with the flag set every pair is attempted.  The concrete
conjuncts replay the spec scenario: codes 0,1,0 give final code 1;
appending an internal error 3 and one more pair gives final code 3 with
the last pair unexecuted when the flag is unset, and all pairs executed
(final still 3) when it is set. -/
theorem C1_run_exit_code_aggregation :
    (∀ (plan : List Int) (ignore : Bool), plan ≠ [] →
        runFinalCode plan ignore ∈ runExecutedCodes plan ignore ∧
        ∀ c ∈ runExecutedCodes plan ignore, c ≤ runFinalCode plan ignore) ∧
    (∀ (rest : List Int) (ignore : Bool),
        runExecutedCodes (EXIT_TESTSFAILED :: rest) ignore =
          EXIT_TESTSFAILED :: runExecutedCodes rest ignore) ∧
    (∀ (c : Int) (rest : List Int), c ≠ EXIT_OK → c ≠ EXIT_TESTSFAILED →
        runExecutedCodes (c :: rest) false = [c]) ∧
    (∀ (c : Int) (rest : List Int),
        runExecutedCodes (c :: rest) true = c :: runExecutedCodes rest true) ∧
    runFinalCode [0, 1, 0] false = 1 ∧
    runExecutedCodes [0, 1, 0, 3, 1] false = [0, 1, 0, 3] ∧
    runFinalCode [0, 1, 0, 3, 1] false = 3 ∧
    runExecutedCodes [0, 1, 0, 3, 1] true = [0, 1, 0, 3, 1] ∧
    runFinalCode [0, 1, 0, 3, 1] true = 3 := by
  refine ⟨?_, ?_, ?_, ?_, by decide, by decide, by decide, by decide, by decide⟩
  · intro plan ignore h
    exact listMaxInt_spec _ (runExecutedCodes_ne_nil plan ignore h)
  · intro rest ignore
    rw [runExecutedCodes]
    simp [EXIT_TESTSFAILED]
  · intro c rest h0 h1
    rw [runExecutedCodes]
    split
    · rename_i hcond
      rcases hcond with h | h | h
      · exact absurd h h0
      · exact absurd h h1
      · simp at h
    · rfl
  · intro c rest
    rw [runExecutedCodes]
    simp

/-- Witness for C1 at concrete inputs. -/
theorem C1_run_exit_code_aggregation_witness :
    runFinalCode [0, 1, 0, 3, 9] false ∈ runExecutedCodes [0, 1, 0, 3, 9] false ∧
    runExecutedCodes (3 :: [7, 8]) false = [3] :=
  ⟨(C1_run_exit_code_aggregation.1 [0, 1, 0, 3, 9] false (by decide)).1,
   C1_run_exit_code_aggregation.2.2.1 3 [7, 8] (by decide) (by decide)⟩

/-! ## C3: marker-option resolution priority -/

/-- C3: MarkerOption._get_value returns the explicit per-test marker
override with scope 'function' when it is non-null; otherwise the
class-level static default with scope 'class' when non-null; otherwise
the module-level static default with scope 'module' when non-null; and
when none is found it returns (None, None). -/
theorem C3_marker_option_priority {α : Type} (mo : MarkerOption) (m : Metafunc α) :
    (∀ v, markerValue mo m = some v →
        mo.getValue m = (some v, some "function")) ∧
    (markerValue mo m = none → ∀ w, classValue mo m = some w →
        mo.getValue m = (some w, some "class")) ∧
    (markerValue mo m = none → classValue mo m = none → ∀ u, moduleValue mo m = some u →
        mo.getValue m = (some u, some "module")) ∧
    (markerValue mo m = none → classValue mo m = none → moduleValue mo m = none →
        mo.getValue m = (none, none)) := by
  refine ⟨?_, ?_, ?_, ?_⟩
  · intro v hv
    rw [markerValue] at hv
    obtain ⟨kwargs, hk, hv2⟩ := Option.bind_eq_some.mp hv
    simp [MarkerOption.getValue, hk, hv2]
  · intro hnone w hw
    rw [markerValue] at hnone
    rw [classValue] at hw
    rcases hfm : lookupAssoc m.funcMarkers mo.marker_name with _ | kwargs
    · simp [MarkerOption.getValue, hfm, hw]
    · rw [hfm] at hnone
      simp only [Option.some_bind] at hnone
      simp [MarkerOption.getValue, hfm, hnone, hw]
  · intro hnone hcls u hu
    rw [markerValue] at hnone
    rw [classValue] at hcls
    rw [moduleValue] at hu
    rcases hfm : lookupAssoc m.funcMarkers mo.marker_name with _ | kwargs
    · simp [MarkerOption.getValue, hfm, hcls, hu]
    · rw [hfm] at hnone
      simp only [Option.some_bind] at hnone
      simp [MarkerOption.getValue, hfm, hnone, hcls, hu]
  · intro hnone hcls hmod
    rw [markerValue] at hnone
    rw [classValue] at hcls
    rw [moduleValue] at hmod
    rcases hfm : lookupAssoc m.funcMarkers mo.marker_name with _ | kwargs
    · simp [MarkerOption.getValue, hfm, hcls, hmod]
    · rw [hfm] at hnone
      simp only [Option.some_bind] at hnone
      simp [MarkerOption.getValue, hfm, hnone, hcls, hmod]

/-- Witness for C3: a context with all three sources set resolves to the
override; removing sources one by one walks down the chain. -/
theorem C3_marker_option_priority_witness :
    (MarkerOption.getValue ⟨"mk", "opt", "st"⟩
      (⟨[("mk", [("opt", Val.int 1)])], some [("st", Val.int 2)], [("st", Val.int 3)]⟩ :
        Metafunc Val) = (some (Val.int 1), some "function")) ∧
    (MarkerOption.getValue ⟨"mk", "opt", "st"⟩
      (⟨[], some [("st", Val.int 2)], [("st", Val.int 3)]⟩ : Metafunc Val) =
        (some (Val.int 2), some "class")) ∧
    (MarkerOption.getValue ⟨"mk", "opt", "st"⟩
      (⟨[], none, [("st", Val.int 3)]⟩ : Metafunc Val) = (some (Val.int 3), some "module")) ∧
    (MarkerOption.getValue ⟨"mk", "opt", "st"⟩
      (⟨[], none, []⟩ : Metafunc Val) = (none, none)) :=
  ⟨(C3_marker_option_priority ⟨"mk", "opt", "st"⟩
      ⟨[("mk", [("opt", Val.int 1)])], some [("st", Val.int 2)], [("st", Val.int 3)]⟩).1
      (Val.int 1) rfl,
   (C3_marker_option_priority ⟨"mk", "opt", "st"⟩
      ⟨[], some [("st", Val.int 2)], [("st", Val.int 3)]⟩).2.1 rfl (Val.int 2) rfl,
   (C3_marker_option_priority ⟨"mk", "opt", "st"⟩
      ⟨[], none, [("st", Val.int 3)]⟩).2.2.1 rfl rfl (Val.int 3) rfl,
   (C3_marker_option_priority ⟨"mk", "opt", "st"⟩
      ⟨[], none, []⟩).2.2.2 rfl rfl rfl⟩

/-! ## C9: timeout sentinel -/

/-- C9: when run is given a positive timeout and the watchdog fired
before inspection, the invocation is unconditionally treated as failed:
whatever p.wait() returned, the observed exit code is replaced by the
reserved sentinel ProcessError.TIMEOUT = -1 and a ProcessError carrying
that sentinel and the timeout duration is raised; the sentinel is
distinct from every genuine (non-negative) application exit code. -/
theorem C9_timeout_sentinel (t : Nat) (wc : Int) (ht : 0 < t) :
    runInvocation t wc true =
      .error ⟨"Process has failed with exit code -1", ProcessError.TIMEOUT, some t⟩ ∧
    ∀ app : Int, 0 ≤ app → ProcessError.TIMEOUT ≠ app := by
  constructor
  · have ht' : t ≠ 0 := Nat.pos_iff_ne_zero.mp ht
    simp [runInvocation, ht', ProcessError.TIMEOUT]
    rfl
  · intro app happ
    rw [ProcessError.TIMEOUT]
    omega

/-- Witness for C9: a 1-second timeout against a process whose wait
returned 0 after the watchdog fired. -/
theorem C9_timeout_sentinel_witness :
    runInvocation 1 0 true =
      .error ⟨"Process has failed with exit code -1", ProcessError.TIMEOUT, some 1⟩ :=
  (C9_timeout_sentinel 1 0 (by decide)).1

/-! ## C5: status numeric identity and total ordering -/

/-- C5: status_id is PHASE_WEIGHT (10000) times the phase index plus
ITEM_WEIGHT (100) times the class item id plus the local id; the
comparison operators compare exactly by this number; the ordering is
total; a status in a strictly later phase with equal item and local id
is strictly greater (for any local id); and over all statuses the
program generates, equal phase and strictly smaller item id give a
strictly smaller status. -/
theorem C5_status_identity_and_ordering :
    (∀ s : StatusVal, status_id s =
        PHASE_WEIGHT * STATUS_PHASES.indexOf s.phase + ITEM_WEIGHT * ITEM_ID s.cls + s.sid) ∧
    (∀ a b : StatusVal, statusEq a b ↔ status_id a = status_id b) ∧
    (∀ a b : StatusVal, statusLt a b ↔ status_id a < status_id b) ∧
    (∀ a b : StatusVal, statusGt a b ↔ status_id a > status_id b) ∧
    (∀ a b : StatusVal, statusLt a b ∨ statusEq a b ∨ statusGt a b) ∧
    (∀ (c : SClass) (sid : Nat) (n1 n2 : String) (p q : Option Phase),
      STATUS_PHASES.indexOf p < STATUS_PHASES.indexOf q →
      statusLt ⟨c, sid, n1, p⟩ ⟨c, sid, n2, q⟩) ∧
    (∀ s ∈ allStatuses, ∀ t ∈ allStatuses,
      s.phase = t.phase → ITEM_ID s.cls < ITEM_ID t.cls → statusLt s t) := by
  refine ⟨fun s => rfl, fun a b => Iff.rfl, fun a b => Iff.rfl, fun a b => Iff.rfl,
    ?_, ?_, ?_⟩
  · intro a b
    rcases Nat.lt_trichotomy (status_id a) (status_id b) with h | h | h
    · exact Or.inl h
    · exact Or.inr (Or.inl h)
    · exact Or.inr (Or.inr h)
  · intro c sid n1 n2 p q hpq
    show status_id ⟨c, sid, n1, p⟩ < status_id ⟨c, sid, n2, q⟩
    simp only [status_id, PHASE_WEIGHT, ITEM_WEIGHT]
    omega
  · decide

/-- Witness for C5: call-phase compiler status below the teardown-phase
one with the same local id, and the compiler general error below the
debugger general error in the same phase. -/
theorem C5_status_identity_and_ordering_witness :
    statusLt ⟨.compiler, 7, "X", some .call⟩ ⟨.compiler, 7, "X", some .teardown⟩ ∧
    statusLt ⟨.compiler, 2, "GENERALERROR", some .call⟩
      ⟨.debugger, 2, "GENERALERROR", some .call⟩ :=
  ⟨C5_status_identity_and_ordering.2.2.2.2.2.1 .compiler 7 "X" "X"
      (some .call) (some .teardown) (by decide),
   C5_status_identity_and_ordering.2.2.2.2.2.2
      ⟨.compiler, 2, "GENERALERROR", some .call⟩ (by decide)
      ⟨.debugger, 2, "GENERALERROR", some .call⟩ (by decide) rfl (by decide)⟩

/-! ## C6: uniqueness invariants of the status taxonomy -/

/-- C6 counterexample: StatusBootstrap and StatusCompiler are two
distinct declared status classes sharing ITEM_ID 5, so item ids are NOT
unique per class. -/
theorem C6_counterexample :
    SClass.bootstrap ∈ statusClasses ∧ SClass.compiler ∈ statusClasses ∧
    SClass.bootstrap ≠ SClass.compiler ∧
    ITEM_ID SClass.bootstrap = ITEM_ID SClass.compiler := by decide

/-- C6 (amended): the ONLY pair of distinct declared classes sharing an
item_id is (StatusBootstrap, StatusCompiler), both 5; and within any
single class no two generated statuses share the same (phase, local_id)
pair. -/
theorem C6_item_and_local_uniqueness :
    (∀ c1 ∈ statusClasses, ∀ c2 ∈ statusClasses, c1 ≠ c2 → ITEM_ID c1 = ITEM_ID c2 →
      (c1 = SClass.bootstrap ∧ c2 = SClass.compiler) ∨
      (c1 = SClass.compiler ∧ c2 = SClass.bootstrap)) ∧
    (∀ c ∈ statusClasses, (((registryOf c).map fun s => (s.phase, s.sid))).Nodup) := by
  constructor <;> decide

/-- Witness for C6 at the colliding pair and at StatusUvm. -/
theorem C6_item_and_local_uniqueness_witness :
    ((SClass.bootstrap = SClass.bootstrap ∧ SClass.compiler = SClass.compiler) ∨
      (SClass.bootstrap = SClass.compiler ∧ SClass.compiler = SClass.bootstrap)) ∧
    (((registryOf .uvm).map fun s => (s.phase, s.sid))).Nodup :=
  ⟨C6_item_and_local_uniqueness.1 .bootstrap (by decide) .compiler (by decide)
      (by decide) (by decide),
   C6_item_and_local_uniqueness.2 .uvm (by decide)⟩

/-! ## C2: classification totality -/

/-- C2: the code violates the claim.  In live mode, a failed report
whose tool names a class with declared STATUS_ attributes (uvm,
bootstrap) together with an exception of a type that has no specific
handler makes Status._clasify_other raise TypeError (the broken
cls(id, *attributes, phase=report.when) call) instead of returning a
generic status; and in offline mode a non-skipped failed result whose
log fuzzy-matches a class without common-error statuses (internal,
bootstrap) classifies to None even though it is not the documented
skipped case.  Classes that reach cls.status(STATUS_GENERALERROR, when)
— i.e. those without declared attributes — and the classifier fallback
do return the generic failure status of the current phase, and a
skipped offline result yields None, as the claim says. -/
theorem C2_classification_totality_violations :
    clasify (.live ⟨false, some "uvm", .call, none⟩ ⟨"RuntimeError", [], []⟩) =
      .error .typeError ∧
    clasify (.live ⟨false, some "bootstrap", .call, none⟩ ⟨"RuntimeError", [], []⟩) =
      .error .typeError ∧
    clasify (.xml ⟨false, false, " internal \nE  FooError"⟩) = .ok none ∧
    clasify (.live ⟨false, some "compiler", .setup, none⟩ ⟨"RuntimeError", [], []⟩) =
      .ok (some ⟨.compiler, STATUS_GENERALERROR, "GENERALERROR", some .setup⟩) ∧
    clasify (.live ⟨false, none, .teardown, none⟩ ⟨"RuntimeError", [], []⟩) =
      .ok (some ⟨.internal, STATUS_FAILED, "FAILED", some .teardown⟩) ∧
    clasify (.xml ⟨true, false, "anything"⟩) = .ok none :=
  ⟨rfl, rfl, rfl, rfl, rfl, rfl⟩

end Mastermind
